import Mathlib

/-!
Shallow embedding of the Tesorio fork of `django_saml2_auth/views.py`.

The Python module orchestrates the SP side of a SAML 2.0 web-SSO flow:
`signin` validates the requested post-login redirect and produces the IdP
redirect, `acs` consumes the IdP's posted assertion, resolves the asserted
email to a local user and establishes the authenticated session, and
`_get_saml_client` builds the per-request SP configuration from the
session-carried metadata reference.

External collaborators (Django's URL reversing, `url_has_allowed_host_and_scheme`,
`urllib` decoding/parsing, the pysaml2 client, the user store) are passed in as
explicit parameters/oracles; the orchestration logic itself is translated
statement by statement.  Python exceptions that the module lets escape are
modelled with `Except PyErr`; session operations performed by `acs` are
recorded in an event trace so that their ordering can be stated.
-/

namespace DjangoSaml2Auth

/-- Python truthiness of an optional string (`None` and `""` are falsy):
models `if value:` on a `r.session.get(...)` result. -/
def pyTruthy : Option String → Bool
  | none => false
  | some s => !(s == "")

/-- Python's substring containment test `pat in s`. -/
def pyIn (pat s : String) : Bool := decide (pat.data <:+: s.data)

/-- Python's `str.lower()` (ASCII case folding, as in Django's `__iexact`
matching for these inputs). -/
def pyLower (s : String) : String := String.mk (s.data.map Char.toLower)

/-- Exceptions that `views.py` can let escape or must catch:
`KeyError`/`IndexError` (both subclasses of Python's `LookupError`) from
`user_identity[name][0]`, and the Django ORM errors from `.get()`. -/
inductive PyErr
  | keyError (key : String)
  | indexError
  | doesNotExist
  | multipleObjectsReturned
deriving DecidableEq, Repr

/-- Python's `LookupError` base class covers `KeyError` and `IndexError`. -/
def PyErr.isLookupError : PyErr → Bool
  | .keyError _ => true
  | .indexError => true
  | _ => false

/-- An HTTP response produced by the module: every exit of `signin` and `acs`
is an `HttpResponseRedirect`.  The target is optional because `signin` passes
the `Location` header lookup result, which can be absent. -/
inductive Response
  | redirect (target : Option String)
deriving DecidableEq, Repr

/-- The session keys that `views.py` reads and writes.  `none` models a
missing key. -/
structure Session where
  saml_metadata_conf_url : Option String
  saml_metadata_conf_raw : Option String
  login_next_url : Option String
deriving DecidableEq, Repr

/-- `r.session.flush()`: every key is gone afterwards. -/
def Session.flush : Session :=
  { saml_metadata_conf_url := none, saml_metadata_conf_raw := none,
    login_next_url := none }

/-- The `TRIGGER` sub-dictionary of `settings.SAML2_AUTH`. -/
structure Trigger where
  BEFORE_LOGIN : Option String
  CREATE_USER : Option String
deriving DecidableEq, Repr

/-- The `NEW_USER_PROFILE` sub-dictionary of `settings.SAML2_AUTH`
(each key optional; `_create_new_user` applies the defaults). -/
structure NewUserProfile where
  USER_GROUPS : Option (List String)
  ACTIVE_STATUS : Option Bool
  STAFF_STATUS : Option Bool
  SUPERUSER_STATUS : Option Bool
deriving DecidableEq, Repr

/-- The `settings.SAML2_AUTH` dictionary, restricted to the keys `views.py`
reads.  `CREATE_USER` is kept because the spec discusses it; the code of this
fork never reads it. -/
structure Settings where
  ASSERTION_URL : Option String
  DEFAULT_NEXT_URL : Option String
  METADATA_INLINE : Option String
  METADATA_AUTO_CONF_URL : Option String
  NAME_ID_FORMAT : Option String
  ATTRIBUTES_MAP : List (String × String)
  TRIGGER : Option Trigger
  NEW_USER_PROFILE : Option NewUserProfile
  CREATE_USER : Option Bool
deriving DecidableEq, Repr

/-- `settings.SAML2_AUTH.get('TRIGGER', {}).get('BEFORE_LOGIN', None)` -/
def Settings.beforeLogin (st : Settings) : Option String :=
  match st.TRIGGER with
  | some t => t.BEFORE_LOGIN
  | none => none

/-- `settings.SAML2_AUTH.get('ATTRIBUTES_MAP', {}).get(logical, dflt)` -/
def Settings.attrName (st : Settings) (logical dflt : String) : String :=
  (st.ATTRIBUTES_MAP.lookup logical).getD dflt

/-- `.get('NEW_USER_PROFILE', {}).get('USER_GROUPS', [])` -/
def Settings.newUserGroups (st : Settings) : List String :=
  match st.NEW_USER_PROFILE with
  | some p => p.USER_GROUPS.getD []
  | none => []

/-- `.get('NEW_USER_PROFILE', {}).get('ACTIVE_STATUS', True)` -/
def Settings.newActiveStatus (st : Settings) : Bool :=
  match st.NEW_USER_PROFILE with
  | some p => p.ACTIVE_STATUS.getD true
  | none => true

/-- `.get('NEW_USER_PROFILE', {}).get('STAFF_STATUS', True)` -/
def Settings.newStaffStatus (st : Settings) : Bool :=
  match st.NEW_USER_PROFILE with
  | some p => p.STAFF_STATUS.getD true
  | none => true

/-- `.get('NEW_USER_PROFILE', {}).get('SUPERUSER_STATUS', False)` -/
def Settings.newSuperuserStatus (st : Settings) : Bool :=
  match st.NEW_USER_PROFILE with
  | some p => p.SUPERUSER_STATUS.getD false
  | none => false

/-- Results of Django's `reverse` for the names `views.py` reverses; modelled
as given data since URL configuration is external. -/
structure Urls where
  acs : String
  denied : String
  ssoLogin : String
  adminIndex : String
deriving DecidableEq, Repr

/-- `get_current_domain`: the `ASSERTION_URL` setting when present, otherwise
`scheme://host` from the request. -/
def get_current_domain (st : Settings) (isSecure : Bool) (host : String) : String :=
  match st.ASSERTION_URL with
  | some u => u
  | none => (if isSecure then "https" else "http") ++ "://" ++ host

/-- A pysaml2 metadata source dictionary as built by `_get_saml_client`:
either `{"inline": [...]}` or `{"remote": [{"url": ...}]}`. -/
inductive Metadata
  | inlineXml (blobs : List String)
  | remote (url : Option String)
deriving DecidableEq, Repr

/-- SAML transport bindings used for the ACS endpoints. -/
inductive Binding
  | httpRedirect
  | httpPost
deriving DecidableEq, Repr

/-- The `service.sp` block of the pysaml2 settings dictionary. -/
structure SpService where
  assertion_consumer_service : List (String × Binding)
  allow_unsolicited : Bool
  authn_requests_signed : Bool
  logout_requests_signed : Bool
  want_assertions_signed : Bool
  want_response_signed : Bool
  name_id_format : Option String
deriving DecidableEq, Repr

/-- The pysaml2 settings dictionary built by `_get_saml_client`, together with
the `allow_unknown_attributes` flag set on the loaded config. -/
structure SamlSettings where
  metadata : Metadata
  sp : SpService
  entityid : String
  allow_unknown_attributes : Bool
deriving DecidableEq, Repr

/-- The metadata-source selection of `_get_saml_client` when the per-flow raw
blob is falsy: `elif "METADATA_INLINE" in settings.SAML2_AUTH: ... else:
remote url`. -/
def metadataFromSettings (st : Settings) (metadata_conf_url : Option String) :
    Metadata :=
  match st.METADATA_INLINE with
  | some m => .inlineXml [m]
  | none => .remote metadata_conf_url

/-- The full metadata-source selection of `_get_saml_client`:
`if metadata_conf_raw: inline [raw]` (Python truthiness), else the settings
fallbacks. -/
def resolveMetadata (st : Settings) (metadata_conf_url metadata_conf_raw : Option String) :
    Metadata :=
  match metadata_conf_raw with
  | some raw => if raw == "" then metadataFromSettings st metadata_conf_url
                else .inlineXml [raw]
  | none => metadataFromSettings st metadata_conf_url

/-- `_get_saml_client(domain, metadata_conf_url, metadata_conf_raw)` up to the
point where the pysaml2 objects are instantiated: the settings value it hands
to `Saml2Config.load`, with `acsPath` standing for
`get_reverse([acs, "acs", "django_saml2_auth:acs"])`. -/
def get_saml_client (st : Settings) (domain acsPath : String)
    (metadata_conf_url metadata_conf_raw : Option String) : SamlSettings :=
  let metadata := resolveMetadata st metadata_conf_url metadata_conf_raw
  let acs_url := domain ++ acsPath
  { metadata := metadata
    sp :=
      { assertion_consumer_service :=
          [(acs_url, .httpRedirect), (acs_url, .httpPost)]
        allow_unsolicited := true
        authn_requests_signed := false
        logout_requests_signed := true
        want_assertions_signed := true
        want_response_signed := false
        name_id_format := st.NAME_ID_FORMAT }
    entityid := acs_url
    allow_unknown_attributes := true }

/-- A record of the Django `User` model, restricted to the fields `views.py`
touches.  `groups` holds group names. -/
structure PyUser where
  username : String
  email : String
  first_name : String
  last_name : String
  is_active : Bool
  is_staff : Bool
  is_superuser : Bool
  groups : List String
deriving DecidableEq, Repr

/-- `User.objects.get(email__iexact=user_email)`: case-insensitive email
match against the user store; zero matches raise `DoesNotExist`, more than
one raise `MultipleObjectsReturned`. -/
def getByEmailIexact (store : List PyUser) (email : String) : Except PyErr PyUser :=
  match store.filter (fun u => pyLower u.email == pyLower email) with
  | [] => .error .doesNotExist
  | [u] => .ok u
  | _ => .error .multipleObjectsReturned

/-- `[Group.objects.get(name=x) for x in names]`: each name must exist in the
group store or `DoesNotExist` escapes. -/
def getGroups (groupStore : List String) : List String → Except PyErr (List String)
  | [] => .ok []
  | g :: gs =>
    if g ∈ groupStore then
      match getGroups groupStore gs with
      | .ok rest => .ok (g :: rest)
      | .error e => .error e
    else .error .doesNotExist

/-- `_create_new_user(username, email, firstname, lastname)`: builds the user
with groups and active/staff/superuser flags taken from the
`NEW_USER_PROFILE` configuration defaults.  Dead code in this fork: `acs`
never calls it. -/
def create_new_user (st : Settings) (groupStore : List String)
    (username email firstname lastname : String) : Except PyErr PyUser :=
  match getGroups groupStore st.newUserGroups with
  | .error e => .error e
  | .ok groups =>
    .ok { username := username
          email := email
          first_name := firstname
          last_name := lastname
          is_active := st.newActiveStatus
          is_staff := st.newStaffStatus
          is_superuser := st.newSuperuserStatus
          groups := groups }

/-- The identity attribute bag `authn_response.get_identity()` returns: a
dictionary from assertion attribute name to value list. -/
def Identity := List (String × List String)

/-- Outcome of `saml_client.parse_authn_request_response(resp, BINDING_HTTP_POST)`
followed by `get_identity()`: `invalid` models a `None` response object,
`valid none` a response whose identity is `None`. -/
inductive ParseResult
  | invalid
  | valid (identity : Option (List (String × List String)))

/-- `user_identity[name][0]`: dictionary subscript (`KeyError` when the name
is absent) followed by list subscript (`IndexError` on an empty value list),
otherwise the first value. -/
def getAttr (identity : List (String × List String)) (name : String) :
    Except PyErr String :=
  match identity.lookup name with
  | none => .error (.keyError name)
  | some [] => .error .indexError
  | some (v :: _) => .ok v

/-- Session/identity side effects of one `acs` call, in execution order. -/
inductive AcsEvent
  | readFlowMeta
  | readNextUrl
  | parseResponse
  | hookBeforeLogin
  | flushSession
  | loginUser (email : String)
deriving DecidableEq, Repr

/-- Everything one `acs` call produces: the HTTP response, the session as it
stands on return, who (if anyone) got an authenticated session, users created,
log lines emitted, and the ordered event trace. -/
structure AcsOutcome where
  response : Response
  session : Session
  loggedIn : Option String
  createdUsers : List PyUser
  warnings : List String
  infos : List String
  events : List AcsEvent
deriving DecidableEq, Repr

/-- `acs(r)`: the assertion consumer handler.  `oracle` models the pysaml2
client built from the settings `_get_saml_client` loads;
`postSamlResponse` is `r.POST.get("SAMLResponse", None)`, and `if not resp:`
is Python truthiness, so both a missing and an empty `SAMLResponse` are
denied before the parser runs.  Exceptions the handler does not catch
(`KeyError`/`IndexError` from attribute extraction,
`MultipleObjectsReturned` from the lookup) surface as `.error`. -/
def acs (st : Settings) (urls : Urls)
    (oracle : SamlSettings → String → ParseResult)
    (store : List PyUser) (domain : String)
    (session : Session) (postSamlResponse : Option String) :
    Except PyErr AcsOutcome :=
  if !pyTruthy session.saml_metadata_conf_url
      && !pyTruthy session.saml_metadata_conf_raw then
    .ok { response := .redirect (some urls.ssoLogin), session := session
          loggedIn := none, createdUsers := [], warnings := []
          infos := ["No saml_metadata_conf found"]
          events := [.readFlowMeta] }
  else
    if !pyTruthy postSamlResponse then
      .ok { response := .redirect (some urls.denied), session := session
            loggedIn := none, createdUsers := [], warnings := [], infos := []
            events := [.readFlowMeta, .readNextUrl] }
    else
      match oracle (get_saml_client st domain urls.acs
          session.saml_metadata_conf_url session.saml_metadata_conf_raw)
          (postSamlResponse.getD "") with
      | .invalid =>
        .ok { response := .redirect (some urls.denied), session := session
              loggedIn := none, createdUsers := [], warnings := [], infos := []
              events := [.readFlowMeta, .readNextUrl, .parseResponse] }
      | .valid none =>
        .ok { response := .redirect (some urls.denied), session := session
              loggedIn := none, createdUsers := [], warnings := [], infos := []
              events := [.readFlowMeta, .readNextUrl, .parseResponse] }
      | .valid (some identity) =>
        match getAttr identity (st.attrName "email" "Email") with
        | .error e => .error e
        | .ok user_email =>
          match getAttr identity (st.attrName "username" "UserName") with
          | .error e => .error e
          | .ok _user_name =>
            match getAttr identity (st.attrName "first_name" "FirstName") with
            | .error e => .error e
            | .ok _user_first_name =>
              match getAttr identity (st.attrName "last_name" "LastName") with
              | .error e => .error e
              | .ok _user_last_name =>
                match getByEmailIexact store user_email with
                | .error .doesNotExist =>
                  .ok { response := .redirect (some "/login/?sso_login_no_user=true")
                        session := session, loggedIn := none, createdUsers := []
                        warnings := ["SSO user was not found: " ++ user_email]
                        infos := []
                        events := [.readFlowMeta, .readNextUrl, .parseResponse] }
                | .error e => .error e
                | .ok target_user =>
                  if target_user.is_active then
                    .ok { response := .redirect (some (session.login_next_url.getD
                            (st.DEFAULT_NEXT_URL.getD urls.adminIndex)))
                          session := Session.flush
                          loggedIn := some target_user.email, createdUsers := []
                          warnings := [], infos := []
                          events := [.readFlowMeta, .readNextUrl, .parseResponse]
                            ++ (if pyTruthy st.beforeLogin
                                then [.hookBeforeLogin] else [])
                            ++ [.flushSession, .loginUser target_user.email] }
                  else
                    .ok { response := .redirect (some urls.denied)
                          session := Session.flush
                          loggedIn := none, createdUsers := []
                          warnings := [], infos := []
                          events := [.readFlowMeta, .readNextUrl, .parseResponse]
                            ++ (if pyTruthy st.beforeLogin
                                then [.hookBeforeLogin] else [])
                            ++ [.flushSession] }

/-- `for key, value in info["headers"]: if key == "Location": ...`:
the first `Location` header, if any. -/
def findLocation : List (String × String) → Option String
  | [] => none
  | (k, v) :: rest => if k == "Location" then some v else findLocation rest

/-- The `next_url` resolution at the top of `signin`: read `next` from the
query string (defaulting to `DEFAULT_NEXT_URL`/admin index); if the URL-decoded
value contains `"next="`, replace it by the inner `next` query parameter of the
decoded URL, falling back to the original value when that parsing raises.
`unquote` models `urllib.parse.unquote`; `innerNext` models
`parse_qs(urlparse(d).query)["next"][0]`, `none` standing for an exception. -/
def resolve_next_url (unquote : String → String)
    (innerNext : String → Option String)
    (getNext : Option String) (dflt : String) : String :=
  let next0 := getNext.getD dflt
  if pyIn "next=" (unquote next0) then
    match innerNext (unquote next0) with
    | some v => v
    | none => next0
  else next0

/-- What one `signin` call produces: the HTTP response and the session on
return. -/
structure SigninResult where
  response : Response
  session : Session
deriving DecidableEq, Repr

/-- `signin(r)`: resolve the redirect target, deny unless
`url_has_allowed_host_and_scheme` (modelled by `urlOk`) accepts it, persist it
as `login_next_url`, and redirect to the `Location` header of the prepared
authentication request (`authnHeaders`). -/
def signin (st : Settings) (urls : Urls) (session : Session)
    (getNext : Option String) (unquote : String → String)
    (innerNext : String → Option String) (urlOk : String → Bool)
    (authnHeaders : List (String × String)) : SigninResult :=
  let dflt := st.DEFAULT_NEXT_URL.getD urls.adminIndex
  let next_url := resolve_next_url unquote innerNext getNext dflt
  if urlOk next_url then
    { response := .redirect (findLocation authnHeaders)
      session := { session with login_next_url := some next_url } }
  else
    { response := .redirect (some urls.denied), session := session }

/-! Concrete example data used by witnesses. -/

/-- A minimal `SAML2_AUTH` settings dictionary for concrete scenarios. -/
def exSettings : Settings :=
  { ASSERTION_URL := none
    DEFAULT_NEXT_URL := some "/dashboard"
    METADATA_INLINE := none
    METADATA_AUTO_CONF_URL := none
    NAME_ID_FORMAT := none
    ATTRIBUTES_MAP := []
    TRIGGER := none
    NEW_USER_PROFILE := none
    CREATE_USER := none }

/-- Concrete reversed URLs for the named routes. -/
def exUrls : Urls :=
  { acs := "/acs/", denied := "/denied/", ssoLogin := "/sso/login/"
    adminIndex := "/admin/" }

/-! Theorems about the claims. -/

/-- C9: for every domain and metadata reference, the SP configuration built by
`_get_saml_client` sets the assertion-consumer-service URL to
`domain ++ acsPath` for both the redirect and POST bindings, sets the entity
ID to that same URL, allows unsolicited responses, leaves outgoing
authentication requests unsigned, signs outgoing logout requests, requires
incoming assertions to be signed, and does not require the full response to
be signed. -/
theorem get_saml_client_fixed_policy (st : Settings) (domain acsPath : String)
    (metadata_conf_url metadata_conf_raw : Option String) :
    (get_saml_client st domain acsPath metadata_conf_url
        metadata_conf_raw).sp.assertion_consumer_service
      = [(domain ++ acsPath, Binding.httpRedirect),
         (domain ++ acsPath, Binding.httpPost)]
    ∧ (get_saml_client st domain acsPath metadata_conf_url
        metadata_conf_raw).entityid = domain ++ acsPath
    ∧ (get_saml_client st domain acsPath metadata_conf_url
        metadata_conf_raw).sp.allow_unsolicited = true
    ∧ (get_saml_client st domain acsPath metadata_conf_url
        metadata_conf_raw).sp.authn_requests_signed = false
    ∧ (get_saml_client st domain acsPath metadata_conf_url
        metadata_conf_raw).sp.logout_requests_signed = true
    ∧ (get_saml_client st domain acsPath metadata_conf_url
        metadata_conf_raw).sp.want_assertions_signed = true
    ∧ (get_saml_client st domain acsPath metadata_conf_url
        metadata_conf_raw).sp.want_response_signed = false :=
  ⟨rfl, rfl, rfl, rfl, rfl, rfl, rfl⟩

/-- C8: in `_get_saml_client`, a truthy per-flow raw metadata blob takes
priority and yields inline metadata; when it is falsy, the `METADATA_INLINE`
settings key is consulted next and yields inline metadata; only when that key
is also absent is the remote metadata URL used. -/
theorem get_saml_client_metadata_precedence (st : Settings)
    (domain acsPath : String) (metadata_conf_url metadata_conf_raw : Option String) :
    (∀ raw, metadata_conf_raw = some raw → raw ≠ "" →
      (get_saml_client st domain acsPath metadata_conf_url
          metadata_conf_raw).metadata = Metadata.inlineXml [raw])
    ∧ (pyTruthy metadata_conf_raw = false → ∀ m, st.METADATA_INLINE = some m →
      (get_saml_client st domain acsPath metadata_conf_url
          metadata_conf_raw).metadata = Metadata.inlineXml [m])
    ∧ (pyTruthy metadata_conf_raw = false → st.METADATA_INLINE = none →
      (get_saml_client st domain acsPath metadata_conf_url
          metadata_conf_raw).metadata = Metadata.remote metadata_conf_url) := by
  refine ⟨?_, ?_, ?_⟩
  · rintro raw rfl hne
    simp [get_saml_client, resolveMetadata, hne]
  · intro hfalsy m hm
    rcases metadata_conf_raw with _ | raw
    · simp [get_saml_client, resolveMetadata, metadataFromSettings, hm]
    · simp [pyTruthy] at hfalsy
      subst hfalsy
      simp [get_saml_client, resolveMetadata, metadataFromSettings, hm]
  · intro hfalsy hm
    rcases metadata_conf_raw with _ | raw
    · simp [get_saml_client, resolveMetadata, metadataFromSettings, hm]
    · simp [pyTruthy] at hfalsy
      subst hfalsy
      simp [get_saml_client, resolveMetadata, metadataFromSettings, hm]

/-- C8 witness: on concrete inputs, a non-empty raw blob wins over a remote
URL. -/
theorem get_saml_client_metadata_precedence_witness :
    (get_saml_client exSettings "https://sp" "/acs/"
        (some "https://idp/meta") (some "<xml/>")).metadata
      = Metadata.inlineXml ["<xml/>"] :=
  (get_saml_client_metadata_precedence exSettings "https://sp" "/acs/"
      (some "https://idp/meta") (some "<xml/>")).1 "<xml/>" rfl (by decide)

/-- C3: when the session carries neither a metadata URL nor raw inline
metadata, `acs` redirects to the SSO initiation endpoint without parsing the
posted assertion, without logging anyone in, and leaves the session
unchanged. -/
theorem acs_no_flow_redirects_to_initiation (st : Settings) (urls : Urls)
    (oracle : SamlSettings → String → ParseResult) (store : List PyUser)
    (domain : String) (session : Session) (post : Option String)
    (hurl : pyTruthy session.saml_metadata_conf_url = false)
    (hraw : pyTruthy session.saml_metadata_conf_raw = false) :
    ∃ out, acs st urls oracle store domain session post = .ok out
      ∧ out.response = .redirect (some urls.ssoLogin)
      ∧ out.session = session
      ∧ out.loggedIn = none
      ∧ AcsEvent.parseResponse ∉ out.events := by
  refine ⟨{ response := .redirect (some urls.ssoLogin), session := session
            loggedIn := none, createdUsers := [], warnings := []
            infos := ["No saml_metadata_conf found"]
            events := [.readFlowMeta] }, ?_, rfl, rfl, rfl, by simp⟩
  simp [acs, hurl, hraw]

/-- C3 witness: a POST with no prior initiation on concrete data. -/
theorem acs_no_flow_redirects_to_initiation_witness :
    ∃ out, acs exSettings exUrls (fun _ _ => ParseResult.invalid) []
        "https://sp" ⟨none, none, none⟩ (some "PHNhbWxwOlJlc3BvbnNlLz4=")
        = .ok out
      ∧ out.response = .redirect (some exUrls.ssoLogin)
      ∧ out.session = ⟨none, none, none⟩
      ∧ out.loggedIn = none
      ∧ AcsEvent.parseResponse ∉ out.events :=
  acs_no_flow_redirects_to_initiation exSettings exUrls
    (fun _ _ => ParseResult.invalid) [] "https://sp" ⟨none, none, none⟩
    (some "PHNhbWxwOlJlc3BvbnNlLz4=") rfl rfl

/-- C1: when the resolved redirect target fails the safe-URL check, `signin`
redirects to the denial page and leaves the session — in particular
`login_next_url` — untouched. -/
theorem signin_unsafe_target_denied (st : Settings) (urls : Urls)
    (session : Session) (getNext : Option String) (unquote : String → String)
    (innerNext : String → Option String) (urlOk : String → Bool)
    (authnHeaders : List (String × String))
    (h : urlOk (resolve_next_url unquote innerNext getNext
        (st.DEFAULT_NEXT_URL.getD urls.adminIndex)) = false) :
    (signin st urls session getNext unquote innerNext urlOk
        authnHeaders).response = .redirect (some urls.denied)
    ∧ (signin st urls session getNext unquote innerNext urlOk
        authnHeaders).session = session := by
  constructor <;> simp [signin, h]

/-- C1 witness: a cross-origin `next` rejected by the (here: all-rejecting)
safe-URL check is denied with the session unchanged. -/
theorem signin_unsafe_target_denied_witness :
    (signin exSettings exUrls ⟨none, none, none⟩
        (some "https://evil.example/") id (fun _ => none) (fun _ => false)
        []).response = .redirect (some "/denied/")
    ∧ (signin exSettings exUrls ⟨none, none, none⟩
        (some "https://evil.example/") id (fun _ => none) (fun _ => false)
        []).session = ⟨none, none, none⟩ :=
  signin_unsafe_target_denied exSettings exUrls ⟨none, none, none⟩
    (some "https://evil.example/") id (fun _ => none) (fun _ => false) [] rfl

/-- C10: `signin` first unwraps a nested redirect — when the URL-decoded
`next` value contains `"next="`, the inner `next` query parameter of the
decoded URL replaces the target, falling back to the original value when that
parsing fails — and the safe-URL check decides denial / persistence on this
unwrapped value. -/
theorem signin_unwraps_nested_next (st : Settings) (urls : Urls)
    (session : Session) (getNext : Option String) (unquote : String → String)
    (innerNext : String → Option String) (urlOk : String → Bool)
    (authnHeaders : List (String × String)) :
    (pyIn "next=" (unquote (getNext.getD
        (st.DEFAULT_NEXT_URL.getD urls.adminIndex))) = true →
      ∀ v, innerNext (unquote (getNext.getD
          (st.DEFAULT_NEXT_URL.getD urls.adminIndex))) = some v →
        resolve_next_url unquote innerNext getNext
          (st.DEFAULT_NEXT_URL.getD urls.adminIndex) = v)
    ∧ (pyIn "next=" (unquote (getNext.getD
        (st.DEFAULT_NEXT_URL.getD urls.adminIndex))) = true →
      innerNext (unquote (getNext.getD
          (st.DEFAULT_NEXT_URL.getD urls.adminIndex))) = none →
        resolve_next_url unquote innerNext getNext
          (st.DEFAULT_NEXT_URL.getD urls.adminIndex)
          = getNext.getD (st.DEFAULT_NEXT_URL.getD urls.adminIndex))
    ∧ (pyIn "next=" (unquote (getNext.getD
        (st.DEFAULT_NEXT_URL.getD urls.adminIndex))) = false →
        resolve_next_url unquote innerNext getNext
          (st.DEFAULT_NEXT_URL.getD urls.adminIndex)
          = getNext.getD (st.DEFAULT_NEXT_URL.getD urls.adminIndex))
    ∧ (urlOk (resolve_next_url unquote innerNext getNext
        (st.DEFAULT_NEXT_URL.getD urls.adminIndex)) = false →
      (signin st urls session getNext unquote innerNext urlOk
          authnHeaders).response = .redirect (some urls.denied))
    ∧ (urlOk (resolve_next_url unquote innerNext getNext
        (st.DEFAULT_NEXT_URL.getD urls.adminIndex)) = true →
      (signin st urls session getNext unquote innerNext urlOk
          authnHeaders).session.login_next_url
        = some (resolve_next_url unquote innerNext getNext
            (st.DEFAULT_NEXT_URL.getD urls.adminIndex))) := by
  refine ⟨?_, ?_, ?_, ?_, ?_⟩
  · intro hin v hv
    simp [resolve_next_url, hin, hv]
  · intro hin hv
    simp [resolve_next_url, hin, hv]
  · intro hin
    simp [resolve_next_url, hin]
  · intro hok
    simp [signin, hok]
  · intro hok
    simp [signin, hok]

/-- C10 witness: a literal wrapped target is unwrapped to its inner `next`
parameter on concrete inputs. -/
theorem signin_unwraps_nested_next_witness :
    resolve_next_url id (fun _ => some "/dashboard/")
      (some "/accounts/login/?next=/dashboard/")
      (exSettings.DEFAULT_NEXT_URL.getD exUrls.adminIndex) = "/dashboard/" :=
  (signin_unwraps_nested_next exSettings exUrls ⟨none, none, none⟩
      (some "/accounts/login/?next=/dashboard/") id
      (fun _ => some "/dashboard/") (fun _ => true) []).1
    (by decide) "/dashboard/" rfl

/-- `User.objects.get(email__iexact=email)` raises `DoesNotExist` when no
stored user's email matches case-insensitively. -/
theorem getByEmailIexact_not_found (store : List PyUser) (email : String)
    (h : ∀ u ∈ store, pyLower u.email ≠ pyLower email) :
    getByEmailIexact store email = .error .doesNotExist := by
  unfold getByEmailIexact
  have hf : store.filter (fun u => pyLower u.email == pyLower email) = [] := by
    refine List.filter_eq_nil_iff.mpr ?_
    intro u hu
    simpa using h u hu
  simp [hf]

/-- C5: a validated assertion whose extracted email matches no local user
(case-insensitively) makes `acs` log the unmatched email and redirect to
`/login/?sso_login_no_user=true`, creating no user and establishing no
authenticated session. -/
theorem acs_unmatched_email_no_user (st : Settings) (urls : Urls)
    (oracle : SamlSettings → String → ParseResult) (store : List PyUser)
    (domain : String) (session : Session) (resp : String)
    (identity : List (String × List String))
    (user_email uname ufirst ulast : String)
    (hflow : (!pyTruthy session.saml_metadata_conf_url
        && !pyTruthy session.saml_metadata_conf_raw) = false)
    (hresp : resp ≠ "")
    (hor : oracle (get_saml_client st domain urls.acs
        session.saml_metadata_conf_url session.saml_metadata_conf_raw) resp
      = ParseResult.valid (some identity))
    (hemail : getAttr identity (st.attrName "email" "Email") = .ok user_email)
    (huser : getAttr identity (st.attrName "username" "UserName") = .ok uname)
    (hfirst : getAttr identity (st.attrName "first_name" "FirstName") = .ok ufirst)
    (hlast : getAttr identity (st.attrName "last_name" "LastName") = .ok ulast)
    (hnomatch : ∀ u ∈ store, pyLower u.email ≠ pyLower user_email) :
    acs st urls oracle store domain session (some resp) =
      .ok { response := .redirect (some "/login/?sso_login_no_user=true")
            session := session, loggedIn := none, createdUsers := []
            warnings := ["SSO user was not found: " ++ user_email], infos := []
            events := [.readFlowMeta, .readNextUrl, .parseResponse] } := by
  have hget := getByEmailIexact_not_found store user_email hnomatch
  have hr : (!pyTruthy (some resp)) = false := by simp [pyTruthy, hresp]
  simp [acs, hflow, hr, hor, hemail, huser, hfirst, hlast, hget]

/-- C5 witness: concrete assertion for `a@b.com` with an empty user store. -/
theorem acs_unmatched_email_no_user_witness :
    acs exSettings exUrls
      (fun _ _ => ParseResult.valid (some
        [("Email", ["a@b.com"]), ("UserName", ["a"]),
         ("FirstName", ["A"]), ("LastName", ["B"])]))
      [] "https://sp" ⟨some "https://idp/meta", none, some "/dashboard"⟩
      (some "PHNhbWxwOlJlc3BvbnNlLz4=") =
      .ok { response := .redirect (some "/login/?sso_login_no_user=true")
            session := ⟨some "https://idp/meta", none, some "/dashboard"⟩
            loggedIn := none, createdUsers := []
            warnings := ["SSO user was not found: a@b.com"], infos := []
            events := [.readFlowMeta, .readNextUrl, .parseResponse] } :=
  acs_unmatched_email_no_user exSettings exUrls
    (fun _ _ => ParseResult.valid (some
      [("Email", ["a@b.com"]), ("UserName", ["a"]),
       ("FirstName", ["A"]), ("LastName", ["B"])]))
    [] "https://sp" ⟨some "https://idp/meta", none, some "/dashboard"⟩
    "PHNhbWxwOlJlc3BvbnNlLz4="
    [("Email", ["a@b.com"]), ("UserName", ["a"]),
     ("FirstName", ["A"]), ("LastName", ["B"])]
    "a@b.com" "a" "A" "B" (by decide) (by decide) rfl rfl rfl rfl rfl (by simp)

/-- C7: with a validated identity bag, a missing required attribute (any of
the four mapped names) makes `acs` raise an unhandled Python `LookupError`
(a `KeyError`/`IndexError`) instead of redirecting; an attribute that is
present with a non-empty value list contributes its first value. -/
theorem acs_missing_attribute_fatal (st : Settings) (urls : Urls)
    (oracle : SamlSettings → String → ParseResult) (store : List PyUser)
    (domain : String) (session : Session) (resp : String)
    (identity : List (String × List String))
    (hflow : (!pyTruthy session.saml_metadata_conf_url
        && !pyTruthy session.saml_metadata_conf_raw) = false)
    (hresp : resp ≠ "")
    (hor : oracle (get_saml_client st domain urls.acs
        session.saml_metadata_conf_url session.saml_metadata_conf_raw) resp
      = ParseResult.valid (some identity)) :
    ((identity.lookup (st.attrName "email" "Email") = none
      ∨ identity.lookup (st.attrName "username" "UserName") = none
      ∨ identity.lookup (st.attrName "first_name" "FirstName") = none
      ∨ identity.lookup (st.attrName "last_name" "LastName") = none) →
      ∃ e, acs st urls oracle store domain session (some resp) = .error e
        ∧ e.isLookupError = true)
    ∧ (∀ name v vs, identity.lookup name = some (v :: vs) →
        getAttr identity name = .ok v) := by
  have hr : (!pyTruthy (some resp)) = false := by simp [pyTruthy, hresp]
  constructor
  · intro hmiss
    rcases h1 : identity.lookup (st.attrName "email" "Email")
      with _ | (_ | ⟨v1, vs1⟩)
    · exact ⟨.keyError (st.attrName "email" "Email"),
        by simp [acs, hflow, hr, hor, getAttr, h1], rfl⟩
    · exact ⟨.indexError, by simp [acs, hflow, hr, hor, getAttr, h1], rfl⟩
    · rcases h2 : identity.lookup (st.attrName "username" "UserName")
        with _ | (_ | ⟨v2, vs2⟩)
      · exact ⟨.keyError (st.attrName "username" "UserName"),
          by simp [acs, hflow, hr, hor, getAttr, h1, h2], rfl⟩
      · exact ⟨.indexError, by simp [acs, hflow, hr, hor, getAttr, h1, h2], rfl⟩
      · rcases h3 : identity.lookup (st.attrName "first_name" "FirstName")
          with _ | (_ | ⟨v3, vs3⟩)
        · exact ⟨.keyError (st.attrName "first_name" "FirstName"),
            by simp [acs, hflow, hr, hor, getAttr, h1, h2, h3], rfl⟩
        · exact ⟨.indexError,
            by simp [acs, hflow, hr, hor, getAttr, h1, h2, h3], rfl⟩
        · rcases h4 : identity.lookup (st.attrName "last_name" "LastName")
            with _ | (_ | ⟨v4, vs4⟩)
          · exact ⟨.keyError (st.attrName "last_name" "LastName"),
              by simp [acs, hflow, hr, hor, getAttr, h1, h2, h3, h4], rfl⟩
          · exact ⟨.indexError,
              by simp [acs, hflow, hr, hor, getAttr, h1, h2, h3, h4], rfl⟩
          · rcases hmiss with h | h | h | h <;> simp_all
  · intro name v vs h
    simp [getAttr, h]

/-- C7 witness: an identity bag with no `Email` key crashes `acs` with a
lookup error on concrete inputs. -/
theorem acs_missing_attribute_fatal_witness :
    ∃ e, acs exSettings exUrls
        (fun _ _ => ParseResult.valid (some [("UserName", ["a"])]))
        [] "https://sp" ⟨some "https://idp/meta", none, none⟩
        (some "PHNhbWxwOlJlc3BvbnNlLz4=") = .error e
      ∧ e.isLookupError = true :=
  (acs_missing_attribute_fatal exSettings exUrls
      (fun _ _ => ParseResult.valid (some [("UserName", ["a"])]))
      [] "https://sp" ⟨some "https://idp/meta", none, none⟩
      "PHNhbWxwOlJlc3BvbnNlLz4=" [("UserName", ["a"])]
      (by decide) (by decide) rfl).1 (Or.inl (by decide))

/-- C2 counterexample: an `acs` call that reads populated flow state but
receives no `SAMLResponse` returns the denial redirect with the session
intact — no flush happens, so flow-state destruction is not unconditional. -/
theorem acs_denied_without_flush_counterexample :
    acs exSettings exUrls (fun _ _ => ParseResult.invalid) [] "https://sp"
        ⟨some "https://idp/meta", none, some "/dashboard"⟩ none =
      .ok { response := .redirect (some "/denied/")
            session := ⟨some "https://idp/meta", none, some "/dashboard"⟩
            loggedIn := none, createdUsers := [], warnings := [], infos := []
            events := [.readFlowMeta, .readNextUrl] }
    ∧ AcsEvent.flushSession ∉ [AcsEvent.readFlowMeta, AcsEvent.readNextUrl] :=
  ⟨rfl, by decide⟩

/-- C2 (amended): whenever `acs` reads flow state and the email lookup finds
a user, the session is flushed before the handler returns — on the
active-user login path and on the inactive-user denial path alike.  (Denial
exits taken before a user is resolved return without flushing.) -/
theorem acs_found_user_flushes_session (st : Settings) (urls : Urls)
    (oracle : SamlSettings → String → ParseResult) (store : List PyUser)
    (domain : String) (session : Session) (resp : String)
    (identity : List (String × List String))
    (user_email uname ufirst ulast : String) (target_user : PyUser)
    (hflow : (!pyTruthy session.saml_metadata_conf_url
        && !pyTruthy session.saml_metadata_conf_raw) = false)
    (hresp : resp ≠ "")
    (hor : oracle (get_saml_client st domain urls.acs
        session.saml_metadata_conf_url session.saml_metadata_conf_raw) resp
      = ParseResult.valid (some identity))
    (hemail : getAttr identity (st.attrName "email" "Email") = .ok user_email)
    (huser : getAttr identity (st.attrName "username" "UserName") = .ok uname)
    (hfirst : getAttr identity (st.attrName "first_name" "FirstName") = .ok ufirst)
    (hlast : getAttr identity (st.attrName "last_name" "LastName") = .ok ulast)
    (hfound : getByEmailIexact store user_email = .ok target_user) :
    ∃ out, acs st urls oracle store domain session (some resp) = .ok out
      ∧ AcsEvent.flushSession ∈ out.events
      ∧ out.session = Session.flush := by
  have hr : (!pyTruthy (some resp)) = false := by simp [pyTruthy, hresp]
  cases hact : target_user.is_active <;> cases hb : pyTruthy st.beforeLogin
  · refine ⟨{ response := .redirect (some urls.denied)
              session := Session.flush
              loggedIn := none, createdUsers := [], warnings := [], infos := []
              events := [.readFlowMeta, .readNextUrl, .parseResponse,
                .flushSession] }, ?_, by simp, rfl⟩
    simp [acs, hflow, hr, hor, hemail, huser, hfirst, hlast, hfound, hact, hb]
  · refine ⟨{ response := .redirect (some urls.denied)
              session := Session.flush
              loggedIn := none, createdUsers := [], warnings := [], infos := []
              events := [.readFlowMeta, .readNextUrl, .parseResponse,
                .hookBeforeLogin, .flushSession] }, ?_, by simp, rfl⟩
    simp [acs, hflow, hr, hor, hemail, huser, hfirst, hlast, hfound, hact, hb]
  · refine ⟨{ response := .redirect (some (session.login_next_url.getD
                (st.DEFAULT_NEXT_URL.getD urls.adminIndex)))
              session := Session.flush
              loggedIn := some target_user.email, createdUsers := []
              warnings := [], infos := []
              events := [.readFlowMeta, .readNextUrl, .parseResponse,
                .flushSession, .loginUser target_user.email] },
      ?_, by simp, rfl⟩
    simp [acs, hflow, hr, hor, hemail, huser, hfirst, hlast, hfound, hact, hb]
  · refine ⟨{ response := .redirect (some (session.login_next_url.getD
                (st.DEFAULT_NEXT_URL.getD urls.adminIndex)))
              session := Session.flush
              loggedIn := some target_user.email, createdUsers := []
              warnings := [], infos := []
              events := [.readFlowMeta, .readNextUrl, .parseResponse,
                .hookBeforeLogin, .flushSession, .loginUser target_user.email] },
      ?_, by simp, rfl⟩
    simp [acs, hflow, hr, hor, hemail, huser, hfirst, hlast, hfound, hact, hb]

/-- An active local user matching the example assertion. -/
def exUser : PyUser :=
  { username := "a", email := "a@b.com", first_name := "A", last_name := "B"
    is_active := true, is_staff := false, is_superuser := false, groups := [] }

/-- C2 (amended) witness: with a matching active user, the concrete `acs`
call flushes the session. -/
theorem acs_found_user_flushes_session_witness :
    ∃ out, acs exSettings exUrls
        (fun _ _ => ParseResult.valid (some
          [("Email", ["a@b.com"]), ("UserName", ["a"]),
           ("FirstName", ["A"]), ("LastName", ["B"])]))
        [exUser] "https://sp"
        ⟨some "https://idp/meta", none, some "/dashboard"⟩
        (some "PHNhbWxwOlJlc3BvbnNlLz4=") = .ok out
      ∧ AcsEvent.flushSession ∈ out.events
      ∧ out.session = Session.flush :=
  acs_found_user_flushes_session exSettings exUrls
    (fun _ _ => ParseResult.valid (some
      [("Email", ["a@b.com"]), ("UserName", ["a"]),
       ("FirstName", ["A"]), ("LastName", ["B"])]))
    [exUser] "https://sp" ⟨some "https://idp/meta", none, some "/dashboard"⟩
    "PHNhbWxwOlJlc3BvbnNlLz4="
    [("Email", ["a@b.com"]), ("UserName", ["a"]),
     ("FirstName", ["A"]), ("LastName", ["B"])]
    "a@b.com" "a" "A" "B" exUser (by decide) (by decide) rfl rfl rfl rfl rfl
    rfl

/-- C4 counterexample: with `CREATE_USER=True` and a user-created hook
configured, an assertion for an unknown email still creates no user and is
redirected to the no-user login URL — the provisioning path is not wired in. -/
theorem acs_no_autoprovisioning_counterexample :
    acs { exSettings with
          CREATE_USER := some true,
          TRIGGER := some { BEFORE_LOGIN := none,
                            CREATE_USER := some "myapp.hooks.user_created" } }
        exUrls
        (fun _ _ => ParseResult.valid (some
          [("Email", ["new@b.com"]), ("UserName", ["new"]),
           ("FirstName", ["N"]), ("LastName", ["U"])]))
        [] "https://sp" ⟨some "https://idp/meta", none, some "/dashboard"⟩
        (some "PHNhbWxwOlJlc3BvbnNlLz4=") =
      .ok { response := .redirect (some "/login/?sso_login_no_user=true")
            session := ⟨some "https://idp/meta", none, some "/dashboard"⟩
            loggedIn := none, createdUsers := []
            warnings := ["SSO user was not found: new@b.com"], infos := []
            events := [.readFlowMeta, .readNextUrl, .parseResponse] } := rfl

/-- `Group.objects.get` succeeds on every name when the whole group list
exists in the store, returning the names in order. -/
theorem getGroups_all_present (groupStore : List String) (names : List String)
    (h : ∀ g ∈ names, g ∈ groupStore) :
    getGroups groupStore names = .ok names := by
  induction names with
  | nil => rfl
  | cons g gs ih =>
    have hg : g ∈ groupStore := h g (by simp)
    have ih' := ih (fun x hx => h x (by simp [hx]))
    simp [getGroups, hg, ih']

/-- C4 (amended): `acs` never auto-provisions — for any configuration
(including `CREATE_USER=True`) an unmatched email yields the no-user redirect
with no user created — while the dead helper `_create_new_user` would build a
user with the configuration-supplied default groups and
active/staff/superuser flags. -/
theorem acs_autoprovision_helper_unwired (st : Settings) (urls : Urls)
    (oracle : SamlSettings → String → ParseResult) (store : List PyUser)
    (domain : String) (session : Session) (resp : String)
    (identity : List (String × List String))
    (user_email uname ufirst ulast : String)
    (groupStore : List String) (nuN nuE nuF nuL : String)
    (hflow : (!pyTruthy session.saml_metadata_conf_url
        && !pyTruthy session.saml_metadata_conf_raw) = false)
    (hresp : resp ≠ "")
    (hor : oracle (get_saml_client st domain urls.acs
        session.saml_metadata_conf_url session.saml_metadata_conf_raw) resp
      = ParseResult.valid (some identity))
    (hemail : getAttr identity (st.attrName "email" "Email") = .ok user_email)
    (huser : getAttr identity (st.attrName "username" "UserName") = .ok uname)
    (hfirst : getAttr identity (st.attrName "first_name" "FirstName") = .ok ufirst)
    (hlast : getAttr identity (st.attrName "last_name" "LastName") = .ok ulast)
    (hnomatch : ∀ u ∈ store, pyLower u.email ≠ pyLower user_email)
    (hgroups : ∀ g ∈ st.newUserGroups, g ∈ groupStore) :
    acs st urls oracle store domain session (some resp) =
      .ok { response := .redirect (some "/login/?sso_login_no_user=true")
            session := session, loggedIn := none, createdUsers := []
            warnings := ["SSO user was not found: " ++ user_email], infos := []
            events := [.readFlowMeta, .readNextUrl, .parseResponse] }
    ∧ create_new_user st groupStore nuN nuE nuF nuL =
      .ok { username := nuN, email := nuE, first_name := nuF, last_name := nuL
            is_active := st.newActiveStatus, is_staff := st.newStaffStatus
            is_superuser := st.newSuperuserStatus
            groups := st.newUserGroups } := by
  constructor
  · have hget := getByEmailIexact_not_found store user_email hnomatch
    have hr : (!pyTruthy (some resp)) = false := by simp [pyTruthy, hresp]
    simp [acs, hflow, hr, hor, hemail, huser, hfirst, hlast, hget]
  · simp [create_new_user, getGroups_all_present groupStore st.newUserGroups hgroups]

/-- C4 (amended) witness: concrete no-match call with `CREATE_USER=True`, and
a concrete `_create_new_user` evaluation with a configured profile. -/
theorem acs_autoprovision_helper_unwired_witness :
    acs { exSettings with CREATE_USER := some true } exUrls
        (fun _ _ => ParseResult.valid (some
          [("Email", ["new@b.com"]), ("UserName", ["new"]),
           ("FirstName", ["N"]), ("LastName", ["U"])]))
        [] "https://sp" ⟨some "https://idp/meta", none, some "/dashboard"⟩
        (some "PHNhbWxwOlJlc3BvbnNlLz4=") =
      .ok { response := .redirect (some "/login/?sso_login_no_user=true")
            session := ⟨some "https://idp/meta", none, some "/dashboard"⟩
            loggedIn := none, createdUsers := []
            warnings := ["SSO user was not found: new@b.com"], infos := []
            events := [.readFlowMeta, .readNextUrl, .parseResponse] }
    ∧ create_new_user { exSettings with CREATE_USER := some true } ["staff"]
        "new" "new@b.com" "N" "U" =
      .ok { username := "new", email := "new@b.com", first_name := "N"
            last_name := "U"
            is_active := ({ exSettings with
              CREATE_USER := some true } : Settings).newActiveStatus
            is_staff := ({ exSettings with
              CREATE_USER := some true } : Settings).newStaffStatus
            is_superuser := ({ exSettings with
              CREATE_USER := some true } : Settings).newSuperuserStatus
            groups := ({ exSettings with
              CREATE_USER := some true } : Settings).newUserGroups } :=
  acs_autoprovision_helper_unwired { exSettings with CREATE_USER := some true }
    exUrls
    (fun _ _ => ParseResult.valid (some
      [("Email", ["new@b.com"]), ("UserName", ["new"]),
       ("FirstName", ["N"]), ("LastName", ["U"])]))
    [] "https://sp" ⟨some "https://idp/meta", none, some "/dashboard"⟩
    "PHNhbWxwOlJlc3BvbnNlLz4="
    [("Email", ["new@b.com"]), ("UserName", ["new"]),
     ("FirstName", ["N"]), ("LastName", ["U"])]
    "new@b.com" "new" "N" "U" ["staff"] "new" "new@b.com" "N" "U"
    (by decide) (by decide) rfl rfl rfl rfl rfl (by simp) (by decide)

/-- C6: in every `acs` invocation that establishes an authenticated session,
the event trace is strictly sequenced — both flow-state reads (the metadata
reference and the post-login redirect target) happen before the session
flush, and the flush happens before `login` establishes the new session. -/
theorem acs_success_event_sequencing (st : Settings) (urls : Urls)
    (oracle : SamlSettings → String → ParseResult) (store : List PyUser)
    (domain : String) (session : Session) (post : Option String)
    (out : AcsOutcome) (u : String)
    (h : acs st urls oracle store domain session post = .ok out)
    (hu : out.loggedIn = some u) :
    ∃ i j k l : Nat, i < k ∧ j < k ∧ k < l
      ∧ out.events[i]? = some AcsEvent.readFlowMeta
      ∧ out.events[j]? = some AcsEvent.readNextUrl
      ∧ out.events[k]? = some AcsEvent.flushSession
      ∧ out.events[l]? = some (AcsEvent.loginUser u) := by
  unfold acs at h
  generalize hc : (!pyTruthy session.saml_metadata_conf_url
      && !pyTruthy session.saml_metadata_conf_raw) = c at h
  cases c
  case true =>
    rw [if_pos rfl] at h
    cases h
    simp at hu
  case false =>
    rw [if_neg (by simp)] at h
    generalize hp : (!pyTruthy post) = p at h
    cases p
    case true =>
      rw [if_pos rfl] at h
      cases h
      simp at hu
    case false =>
      rw [if_neg (by simp)] at h
      split at h
      · cases h
        simp at hu
      · cases h
        simp at hu
      · split at h
        · cases h
        · split at h
          · cases h
          · split at h
            · cases h
            · split at h
              · cases h
              · split at h
                · cases h
                  simp at hu
                · cases h
                · split at h
                  · cases h
                    simp only at hu
                    injection hu with hu
                    subst hu
                    cases hb : pyTruthy st.beforeLogin
                    · exact ⟨0, 1, 3, 4, by omega, by omega, by omega,
                        by simp [hb], by simp [hb], by simp [hb], by simp [hb]⟩
                    · exact ⟨0, 1, 4, 5, by omega, by omega, by omega,
                        by simp [hb], by simp [hb], by simp [hb], by simp [hb]⟩
                  · cases h
                    simp at hu

/-- C6 witness: a concrete successful login exhibits the sequenced trace
(reads, then flush, then login). -/
theorem acs_success_event_sequencing_witness :
    ∃ i j k l : Nat, i < k ∧ j < k ∧ k < l
      ∧ ({ response := Response.redirect (some "/dashboard")
           session := Session.flush
           loggedIn := some "a@b.com", createdUsers := []
           warnings := [], infos := []
           events := [AcsEvent.readFlowMeta, AcsEvent.readNextUrl,
             AcsEvent.parseResponse, AcsEvent.flushSession,
             AcsEvent.loginUser "a@b.com"] } : AcsOutcome).events[i]?
          = some AcsEvent.readFlowMeta
      ∧ ({ response := Response.redirect (some "/dashboard")
           session := Session.flush
           loggedIn := some "a@b.com", createdUsers := []
           warnings := [], infos := []
           events := [AcsEvent.readFlowMeta, AcsEvent.readNextUrl,
             AcsEvent.parseResponse, AcsEvent.flushSession,
             AcsEvent.loginUser "a@b.com"] } : AcsOutcome).events[j]?
          = some AcsEvent.readNextUrl
      ∧ ({ response := Response.redirect (some "/dashboard")
           session := Session.flush
           loggedIn := some "a@b.com", createdUsers := []
           warnings := [], infos := []
           events := [AcsEvent.readFlowMeta, AcsEvent.readNextUrl,
             AcsEvent.parseResponse, AcsEvent.flushSession,
             AcsEvent.loginUser "a@b.com"] } : AcsOutcome).events[k]?
          = some AcsEvent.flushSession
      ∧ ({ response := Response.redirect (some "/dashboard")
           session := Session.flush
           loggedIn := some "a@b.com", createdUsers := []
           warnings := [], infos := []
           events := [AcsEvent.readFlowMeta, AcsEvent.readNextUrl,
             AcsEvent.parseResponse, AcsEvent.flushSession,
             AcsEvent.loginUser "a@b.com"] } : AcsOutcome).events[l]?
          = some (AcsEvent.loginUser "a@b.com") :=
  acs_success_event_sequencing exSettings exUrls
    (fun _ _ => ParseResult.valid (some
      [("Email", ["a@b.com"]), ("UserName", ["a"]),
       ("FirstName", ["A"]), ("LastName", ["B"])]))
    [exUser] "https://sp" ⟨some "https://idp/meta", none, some "/dashboard"⟩
    (some "PHNhbWxwOlJlc3BvbnNlLz4=")
    { response := Response.redirect (some "/dashboard")
      session := Session.flush
      loggedIn := some "a@b.com", createdUsers := []
      warnings := [], infos := []
      events := [AcsEvent.readFlowMeta, AcsEvent.readNextUrl,
        AcsEvent.parseResponse, AcsEvent.flushSession,
        AcsEvent.loginUser "a@b.com"] }
    "a@b.com" rfl rfl

end DjangoSaml2Auth
